import Mathlib

/-!
Verification of `saleor/checkout/models.py` and
`saleor/graphql/meta/permissions.py` (tigerater/saleorclone), via a shallow
embedding: Django model instances become Lean structures, querysets become
explicit lists, model-level mutation (`save`) becomes explicit state passing
returning the updated record together with a flag recording whether a save
was issued.
-/

namespace Saleor

/-- A money value (`prices.Money`): a decimal amount together with a
currency code.  Decimal amounts are embedded as rationals. -/
structure Money where
  amount : ℚ
  currency : String
  deriving DecidableEq, Repr

/-- Source `zero_money(currency)` from `saleor/core/taxes.py` (not under `src/`):
zero amount in the given currency. -/
def zero_money (currency : String) : Money := ⟨0, currency⟩

/-- Modelled from the spec: the `Weight` type of `django_measurement`
together with `zero_weight()` from `saleor/core/weight.py` is not under
`src/`; the spec only requires a unit-typed quantity with a zero identity
element, so a weight is embedded as a rational number of kilograms. -/
structure Weight where
  kilograms : ℚ
  deriving DecidableEq, Repr

/-- Modelled from the spec: `zero_weight()` returns the zero-weight
identity element. -/
def zero_weight : Weight := ⟨0⟩

/-- Weight addition (`weights += ...`). -/
def Weight.add (w v : Weight) : Weight := ⟨w.kilograms + v.kilograms⟩

/-- Multiplication of a weight by an integer quantity
(`line.variant.get_weight() * line.quantity`). -/
def Weight.mul (w : Weight) (n : ℕ) : Weight := ⟨w.kilograms * n⟩

instance : Add Weight := ⟨Weight.add⟩
instance : Zero Weight := ⟨zero_weight⟩

instance : AddMonoid Weight where
  add_assoc a b c := congrArg Weight.mk (add_assoc a.kilograms b.kilograms c.kilograms)
  zero_add a := congrArg Weight.mk (zero_add a.kilograms)
  add_zero a := congrArg Weight.mk (add_zero a.kilograms)
  nsmul := nsmulRec

/-- A product variant.  Only the fields the checkout code touches are
embedded: the primary key `pk` and (modelled from the spec: the
`ProductVariant` model is not under `src/`) the weight that
`variant.get_weight()` yields. -/
structure ProductVariant where
  pk : ℕ
  weight : Weight
  deriving DecidableEq, Repr

/-- Modelled from the spec: `ProductVariant.get_weight()` (the variant's
weight, as used by `Checkout.get_total_weight`). -/
def ProductVariant.get_weight (v : ProductVariant) : Weight := v.weight

/-- Django model equality for `ProductVariant` (`models.Model.__eq__`):
two saved instances of the same model class are equal iff their primary
keys are equal. -/
def ProductVariant.modelEq (v w : ProductVariant) : Bool := v.pk == w.pk

/-- A gift card; only `current_balance_amount` matters to the checkout. -/
structure GiftCard where
  current_balance_amount : ℚ
  deriving DecidableEq, Repr

/-- A payment; only `pk` and `is_active` matter to the checkout. -/
structure Payment where
  pk : ℕ
  is_active : Bool
  deriving DecidableEq, Repr

/-- An address.  `country` is a `django_countries` `Country` value; a
blank country (`Country("")`, which is falsy in `not address.country`)
is embedded as `none`, a set country code as `some code`. -/
structure Address where
  country : Option String
  deriving DecidableEq, Repr

/-- A single checkout line (`CheckoutLine`): the owning checkout is
implicit, the line keeps its identity `pk`, its `variant`, its
`quantity` and its JSON `data` payload (embedded as a string). -/
structure CheckoutLine where
  pk : ℕ
  variant : ProductVariant
  quantity : ℕ
  data : String
  deriving DecidableEq, Repr

/-- Source `CheckoutLine.__eq__`: lines compare equal exactly when their
variants are (model-)equal and their quantities are equal; `pk` and
`data` are not consulted. -/
def CheckoutLine.modelEq (l other : CheckoutLine) : Bool :=
  ProductVariant.modelEq l.variant other.variant && l.quantity == other.quantity

/-- A shopping checkout (`Checkout`).  The related querysets
(`lines`, `gift_cards`, `payments`) are embedded as lists in queryset
order; `country` holds the stored country code. -/
structure Checkout where
  currency : String
  country : String
  shipping_address : Option Address
  billing_address : Option Address
  lines : List CheckoutLine
  gift_cards : List GiftCard
  payments : List Payment
  deriving DecidableEq, Repr

/-- The Django `Sum` aggregate over `current_balance_amount`: `None` when
the related set is empty, otherwise the sum of the amounts. -/
def aggregateSum (cards : List GiftCard) : Option ℚ :=
  match cards with
  | [] => none
  | _ => some (cards.map GiftCard.current_balance_amount).sum

/-- Source `Checkout.get_total_gift_cards_balance`: the aggregated balance of the
attached gift cards, or zero money in the checkout currency when the
aggregate is `None`. -/
def Checkout.get_total_gift_cards_balance (c : Checkout) : Money :=
  match aggregateSum c.gift_cards with
  | none => zero_money c.currency
  | some balance => ⟨balance, c.currency⟩

/-- Source `Checkout.get_total_weight`: starts from `zero_weight()` and adds
`line.variant.get_weight() * line.quantity` for each line. -/
def Checkout.get_total_weight (c : Checkout) : Weight :=
  c.lines.foldl (fun weights line =>
    weights + (line.variant.get_weight).mul line.quantity) zero_weight

/-- Source `Checkout.get_line(variant)`: the first line whose `variant.pk`
equals the given variant's `pk`, if any (`next(matching_lines, None)`). -/
def Checkout.get_line (c : Checkout) (variant : ProductVariant) :
    Option CheckoutLine :=
  c.lines.find? (fun line => line.variant.pk == variant.pk)

/-- One step of Python's `max(..., key=attrgetter("pk"))` scan: replace
the best element seen so far only when the new key is strictly greater
(so the first maximal element wins ties). -/
def pyMaxStep (acc : Option Payment) (p : Payment) : Option Payment :=
  match acc with
  | none => some p
  | some q => if p.pk > q.pk then some p else some q

/-- Python's `max(payments, default=None, key=attrgetter("pk"))`: scan the
list with `pyMaxStep`, `none` for an empty list. -/
def pyMaxByPk (payments : List Payment) : Option Payment :=
  payments.foldl pyMaxStep none

/-- Source `Checkout.get_last_active_payment`: the active payment with the
greatest `pk`, or `none`. -/
def Checkout.get_last_active_payment (c : Checkout) : Option Payment :=
  pyMaxByPk (c.payments.filter Payment.is_active)

/-- Source `Checkout.set_country(country_code, commit, replace)`: when `replace`
is false and the stored country is not `None` (the `CountryField` always
holds a country, so this test always fires) the checkout is left alone;
otherwise the country is replaced and, when `commit` holds, saved.  The
returned flag records whether `save(update_fields=["country"])` ran. -/
def Checkout.set_country (c : Checkout) (country_code : String)
    (commit : Bool := false) (replace : Bool := true) : Checkout × Bool :=
  if !replace then (c, false)
  else ({ c with country := country_code }, commit)

/-- Source `Checkout.get_country`: picks `shipping_address or billing_address`
(Python `or`: the shipping address whenever it is present, the billing
address otherwise), returns the stored country code when no address was
picked or the picked address has a falsy country, and otherwise returns
the picked address's country code, persisting it first when it differs
from the stored one.  Result: (returned code, resulting checkout, whether
a save ran). -/
def Checkout.get_country (c : Checkout) : String × Checkout × Bool :=
  match c.shipping_address.or c.billing_address with
  | none => (c.country, c, false)
  | some a =>
    match a.country with
    | none => (c.country, c, false)
    | some country_code =>
      if country_code == c.country then (country_code, c, false)
      else
        let (c2, saved) := c.set_country country_code true
        (country_code, c2, saved)

/-- Transcription of the claimed behaviour of `get_country` (for
comparison with the code): the country code is drawn from a present
shipping address with a country, preferred over a present billing address
with a country, and only when neither exists is the stored country code
returned. -/
def claimedCountry (c : Checkout) : String :=
  match c.shipping_address.bind Address.country with
  | some code => code
  | none =>
    match c.billing_address.bind Address.country with
    | some code => code
    | none => c.country

/-! ## `saleor/graphql/meta/permissions.py` -/

/-- A user account; only the primary key and the staff flag are consulted
by the metadata permission resolvers. -/
structure User where
  pk : Int
  is_staff : Bool
  deriving DecidableEq, Repr

/-- The request context (`info.context`), carrying the requesting user. -/
structure RequestContext where
  user : User
  deriving DecidableEq, Repr

/-- The GraphQL resolve info object; only `info.context` is consulted. -/
structure Info where
  context : RequestContext
  deriving DecidableEq, Repr

/-- The errors a metadata permission resolver can signal.  The code only
ever raises `graphql_jwt.exceptions.PermissionDenied`; `notFound` stands
for a would-be "object does not exist" error, present in the type so that
the choice between the two is expressible. -/
inductive GraphQLError where
  | permissionDenied
  | notFound
  deriving DecidableEq, Repr

/-- The permission enum members referenced by the permission maps
(`AccountPermissions`, `ProductPermissions`, `OrderPermissions`,
`CheckoutPermissions`). -/
inductive BasePermissionEnum where
  | MANAGE_STAFF
  | MANAGE_USERS
  | MANAGE_SERVICE_ACCOUNTS
  | MANAGE_PRODUCTS
  | MANAGE_ORDERS
  | MANAGE_CHECKOUTS
  deriving DecidableEq, Repr

/-- Source `User.objects.filter(pk=user_pk).first()` over an explicit user
table: the first user whose `pk` matches, if any. -/
def firstUserByPk (db : List User) (user_pk : Int) : Option User :=
  db.find? (fun u => u.pk == user_pk)

/-- The common shape of the resolvers in the permission maps: the resolve
info, the user table (the database state the Django ORM would read), and
the target object's primary key; raising becomes `Except.error`. -/
abbrev MetaPermissionResolver :=
  Info → List User → Int → Except GraphQLError (List BasePermissionEnum)

/-- Source `no_permissions`: requires nothing, for any input. -/
def no_permissions : MetaPermissionResolver :=
  fun _info _db _object_pk => .ok []

/-- Source `public_user_permissions`: denies on a missing target user, requires
nothing for self-access, `MANAGE_STAFF` for a staff target and
`MANAGE_USERS` otherwise. -/
def public_user_permissions : MetaPermissionResolver :=
  fun info db user_pk =>
    match firstUserByPk db user_pk with
    | none => .error .permissionDenied
    | some user =>
      if info.context.user.pk == user.pk then .ok []
      else if user.is_staff then .ok [.MANAGE_STAFF]
      else .ok [.MANAGE_USERS]

/-- Source `private_user_permissions`: denies on a missing target user,
`MANAGE_STAFF` for a staff target and `MANAGE_USERS` otherwise. -/
def private_user_permissions : MetaPermissionResolver :=
  fun _info db user_pk =>
    match firstUserByPk db user_pk with
    | none => .error .permissionDenied
    | some user =>
      if user.is_staff then .ok [.MANAGE_STAFF]
      else .ok [.MANAGE_USERS]

/-- Source `product_permissions`. -/
def product_permissions : MetaPermissionResolver :=
  fun _info _db _object_pk => .ok [.MANAGE_PRODUCTS]

/-- Source `order_permissions`. -/
def order_permissions : MetaPermissionResolver :=
  fun _info _db _object_pk => .ok [.MANAGE_ORDERS]

/-- Source `service_account_permissions`. -/
def service_account_permissions : MetaPermissionResolver :=
  fun _info _db _object_pk => .ok [.MANAGE_SERVICE_ACCOUNTS]

/-- Source `checkout_permissions`. -/
def checkout_permissions : MetaPermissionResolver :=
  fun _info _db _object_pk => .ok [.MANAGE_CHECKOUTS]

/-- Source `PUBLIC_META_PERMISSION_MAP`, entries in source order. -/
def PUBLIC_META_PERMISSION_MAP : List (String × MetaPermissionResolver) :=
  [("Attribute", product_permissions),
   ("Category", product_permissions),
   ("Checkout", no_permissions),
   ("Collection", product_permissions),
   ("DigitalContent", product_permissions),
   ("Fulfillment", order_permissions),
   ("Order", no_permissions),
   ("Product", product_permissions),
   ("ProductType", product_permissions),
   ("ProductVariant", product_permissions),
   ("ServiceAccount", service_account_permissions),
   ("User", public_user_permissions)]

/-- Source `PRIVATE_META_PERMISSION_MAP`, entries in source order. -/
def PRIVATE_META_PERMISSION_MAP : List (String × MetaPermissionResolver) :=
  [("Attribute", product_permissions),
   ("Category", product_permissions),
   ("Checkout", checkout_permissions),
   ("Collection", product_permissions),
   ("DigitalContent", product_permissions),
   ("Fulfillment", order_permissions),
   ("Order", order_permissions),
   ("Product", product_permissions),
   ("ProductType", product_permissions),
   ("ProductVariant", product_permissions),
   ("ServiceAccount", service_account_permissions),
   ("User", private_user_permissions)]

/-! ## Concrete fixtures used by witnesses and counterexamples -/

/-- Fixture: a checkout whose shipping address is present but has a blank
country while the billing address carries a country different from the
stored one. -/
def mismatchCheckout : Checkout :=
  { currency := "USD", country := "DE",
    shipping_address := some ⟨none⟩, billing_address := some ⟨some "US"⟩,
    lines := [], gift_cards := [], payments := [] }

/-- Fixture: a checkout whose shipping address carries a country that
differs from the stored one, so `get_country` must persist a correction. -/
def saveCheckout : Checkout :=
  { currency := "USD", country := "DE",
    shipping_address := some ⟨some "US"⟩, billing_address := none,
    lines := [], gift_cards := [], payments := [] }

/-- Fixture: a variant. -/
def fixtureVariant : ProductVariant := ⟨7, ⟨2⟩⟩

/-- Fixture: a checkout with no addresses, no gift cards, one line and two
payments of which only one is active. -/
def fixtureCheckout : Checkout :=
  { currency := "USD", country := "US",
    shipping_address := none, billing_address := none,
    lines := [⟨1, fixtureVariant, 3, "{}"⟩],
    gift_cards := [],
    payments := [⟨4, true⟩, ⟨9, false⟩] }

/-- Fixture: a user table with one staff and one non-staff user. -/
def fixtureUsers : List User := [⟨1, true⟩, ⟨2, false⟩]

/-- Fixture: a request made by user 1 (staff). -/
def fixtureInfo : Info := ⟨⟨⟨1, true⟩⟩⟩

/-! ## Helper lemmas -/

/-- Folding weight accumulation from the zero identity computes the sum
of the mapped weights. -/
theorem weight_foldl_eq_sum (f : CheckoutLine → Weight) (lines : List CheckoutLine) :
    lines.foldl (fun weights line => weights + f line) zero_weight
      = (lines.map f).sum := by
  rw [List.sum_eq_foldl, List.foldl_map]
  rfl

/-- Lemma: `find?` returns the head of the filtered list. -/
theorem find?_eq_filter_head? {α : Type} (p : α → Bool) (l : List α) :
    l.find? p = (l.filter p).head? := by
  induction l with
  | nil => rfl
  | cons a t ih =>
    cases ha : p a with
    | true =>
      rw [List.find?_cons_of_pos t ha]
      simp [List.filter_cons, ha]
    | false =>
      rw [List.find?_cons_of_neg t (by simp [ha]), ih]
      simp [List.filter_cons, ha]

/-- The Python `max` scan started on a nonempty prefix yields an element
of the scanned data whose key dominates the start and every scanned key. -/
theorem pyMax_foldl_some (l : List Payment) (q : Payment) :
    ∃ r, l.foldl pyMaxStep (some q) = some r ∧ (r = q ∨ r ∈ l) ∧
      q.pk ≤ r.pk ∧ ∀ p ∈ l, p.pk ≤ r.pk := by
  induction l generalizing q with
  | nil => exact ⟨q, rfl, Or.inl rfl, le_refl _, by simp⟩
  | cons p t ih =>
    by_cases hpq : p.pk > q.pk
    · obtain ⟨r, hr, hmem, hle, hall⟩ := ih p
      refine ⟨r, ?_, ?_, le_trans (le_of_lt hpq) hle, ?_⟩
      · simpa [pyMaxStep, hpq] using hr
      · cases hmem with
        | inl h => exact Or.inr (by simp [h])
        | inr h => exact Or.inr (List.mem_cons_of_mem _ h)
      · intro x hx
        rcases List.mem_cons.mp hx with rfl | hx2
        · exact hle
        · exact hall x hx2
    · obtain ⟨r, hr, hmem, hle, hall⟩ := ih q
      refine ⟨r, ?_, ?_, hle, ?_⟩
      · simpa [pyMaxStep, hpq] using hr
      · cases hmem with
        | inl h => exact Or.inl h
        | inr h => exact Or.inr (List.mem_cons_of_mem _ h)
      · intro x hx
        rcases List.mem_cons.mp hx with rfl | hx2
        · exact le_trans (not_lt.mp hpq) hle
        · exact hall x hx2

/-- The Python `max` scan is `none` exactly on the empty list. -/
theorem pyMaxByPk_nil_iff (l : List Payment) : pyMaxByPk l = none ↔ l = [] := by
  cases l with
  | nil => exact ⟨fun _ => rfl, fun _ => rfl⟩
  | cons p t =>
    obtain ⟨r, hr, -, -, -⟩ := pyMax_foldl_some t p
    refine ⟨fun h => ?_, fun h => by cases h⟩
    have hpr : pyMaxByPk (p :: t) = some r := hr
    rw [hpr] at h
    cases h

/-- A `some` result of the Python `max` scan is a member carrying the
greatest key. -/
theorem pyMaxByPk_some_spec (l : List Payment) (r : Payment)
    (h : pyMaxByPk l = some r) : r ∈ l ∧ ∀ p ∈ l, p.pk ≤ r.pk := by
  cases l with
  | nil => cases h
  | cons p t =>
    obtain ⟨s, hs, hmem, hle, hall⟩ := pyMax_foldl_some t p
    have hps : pyMaxByPk (p :: t) = some s := hs
    rw [hps] at h
    obtain rfl : s = r := Option.some.inj h
    constructor
    · cases hmem with
      | inl hq => simp [hq]
      | inr ht => exact List.mem_cons_of_mem _ ht
    · intro x hx
      rcases List.mem_cons.mp hx with rfl | hx2
      · exact hle
      · exact hall x hx2

/-! ## Claims -/

/-- C1: `CheckoutLine` equality holds exactly when the two lines' variants
are (Django-model-)equal and their quantities are equal; the line identity
`pk` and the `data` payload never influence the comparison. -/
theorem checkoutLine_eq_spec (l1 l2 : CheckoutLine) :
    (CheckoutLine.modelEq l1 l2 = true ↔
      ProductVariant.modelEq l1.variant l2.variant = true ∧
        l1.quantity = l2.quantity) ∧
    ∀ pk1 d1 pk2 d2,
      CheckoutLine.modelEq { l1 with pk := pk1, data := d1 }
          { l2 with pk := pk2, data := d2 }
        = CheckoutLine.modelEq l1 l2 := by
  refine ⟨?_, fun _ _ _ _ => rfl⟩
  simp [CheckoutLine.modelEq]

/-- C3: `get_total_gift_cards_balance` is the sum of
`current_balance_amount` over the attached gift cards as money in the
checkout currency, and zero money in the checkout currency when no gift
cards are attached. -/
theorem get_total_gift_cards_balance_spec (c : Checkout) :
    c.get_total_gift_cards_balance =
      ⟨(c.gift_cards.map GiftCard.current_balance_amount).sum, c.currency⟩ ∧
    (c.gift_cards = [] →
      c.get_total_gift_cards_balance = zero_money c.currency) := by
  have h1 : c.get_total_gift_cards_balance =
      ⟨(c.gift_cards.map GiftCard.current_balance_amount).sum, c.currency⟩ := by
    cases hc : c.gift_cards with
    | nil =>
      unfold Checkout.get_total_gift_cards_balance
      rw [hc]
      rfl
    | cons g gs =>
      unfold Checkout.get_total_gift_cards_balance
      rw [hc]
      rfl
  refine ⟨h1, fun hnil => ?_⟩
  rw [h1, hnil]
  rfl

/-- C3 witness: on a checkout without gift cards the balance is zero money
in the checkout currency. -/
theorem get_total_gift_cards_balance_spec_witness :
    fixtureCheckout.get_total_gift_cards_balance
      = zero_money fixtureCheckout.currency :=
  (get_total_gift_cards_balance_spec fixtureCheckout).2 rfl

/-- C4: `get_total_weight` is the sum, starting from the zero-weight
identity, of each line's variant weight times its quantity, and exactly
the zero-weight identity for a checkout without lines. -/
theorem get_total_weight_spec (c : Checkout) :
    c.get_total_weight =
      (c.lines.map
        (fun line => (line.variant.get_weight).mul line.quantity)).sum ∧
    (c.lines = [] → c.get_total_weight = zero_weight) := by
  have h1 : c.get_total_weight =
      (c.lines.map
        (fun line => (line.variant.get_weight).mul line.quantity)).sum :=
    weight_foldl_eq_sum _ c.lines
  refine ⟨h1, fun hnil => ?_⟩
  rw [h1, hnil]
  rfl

/-- C4 witness: an empty checkout weighs the zero-weight identity. -/
theorem get_total_weight_spec_witness :
    mismatchCheckout.get_total_weight = zero_weight :=
  (get_total_weight_spec mismatchCheckout).2 rfl

/-- C5: `get_line` returns the first line (in line order) whose variant
matches the given variant, and `none` exactly when no line matches. -/
theorem get_line_spec (c : Checkout) (variant : ProductVariant) :
    c.get_line variant =
      (c.lines.filter (fun line => line.variant.pk == variant.pk)).head? ∧
    (c.get_line variant = none ↔
      ∀ line ∈ c.lines, line.variant.pk ≠ variant.pk) := by
  constructor
  · exact find?_eq_filter_head? _ c.lines
  · rw [show c.get_line variant
        = c.lines.find? (fun line => line.variant.pk == variant.pk) from rfl,
      List.find?_eq_none]
    simp

/-- C5 witness: no line of the fixture checkout carries variant 5, so
`get_line` yields `none` there. -/
theorem get_line_spec_witness :
    fixtureCheckout.get_line ⟨5, zero_weight⟩ = none :=
  (get_line_spec fixtureCheckout ⟨5, zero_weight⟩).2.mpr (by decide)

/-- C2 counterexample: on a checkout whose shipping address is present but
has a blank country while the billing address carries country `"US"` and
the stored country is `"DE"`, `get_country` returns the stored `"DE"`,
not the billing address's `"US"` demanded by the claim. -/
theorem get_country_claim_counterexample :
    mismatchCheckout.shipping_address = some ⟨none⟩ ∧
    mismatchCheckout.billing_address = some ⟨some "US"⟩ ∧
    claimedCountry mismatchCheckout = "US" ∧
    mismatchCheckout.get_country = ("DE", mismatchCheckout, false) ∧
    (mismatchCheckout.get_country).1 ≠ claimedCountry mismatchCheckout := by
  refine ⟨rfl, rfl, rfl, rfl, ?_⟩
  decide

/-- C2 (amended): `get_country` selects the shipping address when present
and the billing address otherwise; when no address is selected or the
selected address has no country it returns the stored country code and
does not save; when the selected address carries a country it returns
that code, leaving the checkout untouched when it matches the stored one
and persisting it (saving the country field) when it differs. -/
theorem get_country_spec (c : Checkout) (address : Option Address)
    (hsel : c.shipping_address.or c.billing_address = address) :
    ((address = none ∨ ∃ a, address = some a ∧ a.country = none) →
        c.get_country = (c.country, c, false)) ∧
    (∀ a code, address = some a → a.country = some code →
        ((code = c.country → c.get_country = (code, c, false)) ∧
         (code ≠ c.country →
            c.get_country = (code, { c with country := code }, true)))) := by
  unfold Checkout.get_country
  rw [hsel]
  constructor
  · rintro (rfl | ⟨a, rfl, hc⟩)
    · rfl
    · simp [hc]
  · rintro a code rfl hc
    simp only [hc]
    constructor
    · intro heq
      simp [heq]
    · intro hne
      have hb : (code == c.country) = false := beq_eq_false_iff_ne.mpr hne
      simp [hb, Checkout.set_country]

/-- C2 witness: a checkout storing `"DE"` whose shipping address carries
`"US"` gets the corrected country returned and persisted. -/
theorem get_country_spec_witness :
    saveCheckout.get_country
      = ("US", { saveCheckout with country := "US" }, true) :=
  ((get_country_spec saveCheckout (some ⟨some "US"⟩) rfl).2
    ⟨some "US"⟩ "US" rfl rfl).2 (by decide)

/-- C6: when no user carries the requested primary key, both
`public_user_permissions` and `private_user_permissions` raise
`PermissionDenied` — a permission-denied error, not a not-found error —
and neither returns a permission list. -/
theorem user_permissions_missing_user_spec (info : Info) (db : List User)
    (user_pk : Int) (h : ∀ u ∈ db, u.pk ≠ user_pk) :
    public_user_permissions info db user_pk = .error .permissionDenied ∧
    private_user_permissions info db user_pk = .error .permissionDenied ∧
    public_user_permissions info db user_pk ≠ .error .notFound ∧
    private_user_permissions info db user_pk ≠ .error .notFound := by
  have hf : firstUserByPk db user_pk = none :=
    List.find?_eq_none.mpr (fun u hu => by simpa using h u hu)
  refine ⟨?_, ?_, ?_, ?_⟩ <;>
    simp [public_user_permissions, private_user_permissions, hf]

/-- C6 witness: no fixture user has primary key 5, so both resolvers
deny. -/
theorem user_permissions_missing_user_spec_witness :
    public_user_permissions fixtureInfo fixtureUsers 5
        = .error .permissionDenied ∧
    private_user_permissions fixtureInfo fixtureUsers 5
        = .error .permissionDenied ∧
    public_user_permissions fixtureInfo fixtureUsers 5
        ≠ .error .notFound ∧
    private_user_permissions fixtureInfo fixtureUsers 5
        ≠ .error .notFound :=
  user_permissions_missing_user_spec fixtureInfo fixtureUsers 5 (by decide)

/-- C7: `public_user_permissions` requires no permissions when the
requesting user's primary key equals the target user's, whether or not
the target is staff. -/
theorem public_user_permissions_self_spec (info : Info) (db : List User)
    (user_pk : Int) (user : User)
    (hfind : firstUserByPk db user_pk = some user)
    (hself : info.context.user.pk = user.pk) :
    public_user_permissions info db user_pk = .ok [] := by
  simp [public_user_permissions, hfind, hself]

/-- C7 witness: staff user 1 resolving itself gets an empty permission
list. -/
theorem public_user_permissions_self_spec_witness :
    public_user_permissions fixtureInfo fixtureUsers 1 = .ok [] :=
  public_user_permissions_self_spec fixtureInfo fixtureUsers 1
    ⟨1, true⟩ rfl rfl

/-- C8: for an existing target user, `public_user_permissions` (when the
requester is not the target) and `private_user_permissions` both require
exactly `MANAGE_STAFF` for a staff target and exactly `MANAGE_USERS`
otherwise. -/
theorem user_permissions_staff_spec (info : Info) (db : List User)
    (user_pk : Int) (user : User)
    (hfind : firstUserByPk db user_pk = some user)
    (hne : info.context.user.pk ≠ user.pk) :
    public_user_permissions info db user_pk =
      .ok (if user.is_staff then [.MANAGE_STAFF] else [.MANAGE_USERS]) ∧
    private_user_permissions info db user_pk =
      .ok (if user.is_staff then [.MANAGE_STAFF] else [.MANAGE_USERS]) := by
  have hb : (info.context.user.pk == user.pk) = false :=
    beq_eq_false_iff_ne.mpr hne
  cases hstaff : user.is_staff <;>
    simp [public_user_permissions, private_user_permissions, hfind, hb, hstaff]

/-- C8 witness: staff user 1 resolving non-staff user 2 requires
`MANAGE_USERS` publicly and privately. -/
theorem user_permissions_staff_spec_witness :
    public_user_permissions fixtureInfo fixtureUsers 2
        = .ok [.MANAGE_USERS] ∧
    private_user_permissions fixtureInfo fixtureUsers 2
        = .ok [.MANAGE_USERS] :=
  user_permissions_staff_spec fixtureInfo fixtureUsers 2
    ⟨2, false⟩ rfl (by decide)

/-- C9: `get_last_active_payment` is `none` exactly when the checkout has
no active payment, and any returned payment is an active payment of the
checkout whose primary key dominates every active payment's. -/
theorem get_last_active_payment_spec (c : Checkout) :
    (c.get_last_active_payment = none ↔
      ∀ p ∈ c.payments, p.is_active = false) ∧
    (∀ p, c.get_last_active_payment = some p →
      p ∈ c.payments ∧ p.is_active = true ∧
        ∀ q ∈ c.payments, q.is_active = true → q.pk ≤ p.pk) := by
  constructor
  · rw [show c.get_last_active_payment
        = pyMaxByPk (c.payments.filter Payment.is_active) from rfl,
      pyMaxByPk_nil_iff, List.filter_eq_nil_iff]
    simp
  · intro p hp
    obtain ⟨hmem, hall⟩ :=
      pyMaxByPk_some_spec (c.payments.filter Payment.is_active) p hp
    have hmem2 := List.mem_filter.mp hmem
    refine ⟨hmem2.1, hmem2.2, fun q hq hact => ?_⟩
    exact hall q (List.mem_filter.mpr ⟨hq, hact⟩)

/-- C9 witness: the fixture checkout's only active payment (pk 4) is
returned, belongs to the checkout, and dominates all active payments. -/
theorem get_last_active_payment_spec_witness :
    (⟨4, true⟩ : Payment) ∈ fixtureCheckout.payments ∧
    Payment.is_active ⟨4, true⟩ = true ∧
    ∀ q ∈ fixtureCheckout.payments, q.is_active = true →
      q.pk ≤ (4 : ℕ) :=
  (get_last_active_payment_spec fixtureCheckout).2 ⟨4, true⟩ rfl

/-- C10: the public and private metadata permission maps are keyed by the
same twelve entity-type names; for `"Checkout"` and `"Order"` the public
map requires nothing (its resolver answers the empty list on every input)
while the private map requires `MANAGE_CHECKOUTS` and `MANAGE_ORDERS`
respectively. -/
theorem meta_permission_maps_spec :
    PUBLIC_META_PERMISSION_MAP.map Prod.fst
        = PRIVATE_META_PERMISSION_MAP.map Prod.fst ∧
    PUBLIC_META_PERMISSION_MAP.map Prod.fst =
      ["Attribute", "Category", "Checkout", "Collection", "DigitalContent",
       "Fulfillment", "Order", "Product", "ProductType", "ProductVariant",
       "ServiceAccount", "User"] ∧
    (PUBLIC_META_PERMISSION_MAP.map Prod.fst).length = 12 ∧
    PUBLIC_META_PERMISSION_MAP.lookup "Checkout" = some no_permissions ∧
    PUBLIC_META_PERMISSION_MAP.lookup "Order" = some no_permissions ∧
    (∀ info db pk, no_permissions info db pk = .ok []) ∧
    PRIVATE_META_PERMISSION_MAP.lookup "Checkout"
        = some checkout_permissions ∧
    PRIVATE_META_PERMISSION_MAP.lookup "Order" = some order_permissions ∧
    (∀ info db pk,
      checkout_permissions info db pk = .ok [.MANAGE_CHECKOUTS]) ∧
    (∀ info db pk, order_permissions info db pk = .ok [.MANAGE_ORDERS]) :=
  ⟨rfl, rfl, rfl, rfl, rfl, fun _ _ _ => rfl, rfl, rfl,
    fun _ _ _ => rfl, fun _ _ _ => rfl⟩

end Saleor
